import Mathlib

/-!
Shallow embedding of the pyctrl control framework: the control-algorithm
state machines and the loop controller (python/Controller.py), the
per-connection command dispatcher (python/TCPServerFile.py) and the DTSS
state-space model (python/ctrl/system/ss.py).  Python floats are modelled
as exact rationals.
-/

namespace Pyctrl

/-- Closed variant of the ControlAlgorithm hierarchy (Controller.py lines
7-78): OpenLoop, ProportionalController, PIDController (gains, last error,
running integral) and VelocityController (previous measurement, last
velocity, inner controller). -/
inductive ControlAlgorithm : Type
  | openLoop : ControlAlgorithm
  | proportional (Kp gamma : ℚ) : ControlAlgorithm
  | pid (Kp Ki Kd gamma Error ierror : ℚ) : ControlAlgorithm
  | velocity (measurement velocity : ℚ) (inner : ControlAlgorithm) : ControlAlgorithm
deriving DecidableEq

/-- `update(self, measurement, reference, period)` of each algorithm
(Controller.py lines 14-15, 24-25, 40-57 and 69-78): the pair of the
mutated algorithm object and the returned actuation. -/
def ControlAlgorithm.update :
    ControlAlgorithm → ℚ → ℚ → ℚ → ControlAlgorithm × ℚ
  | .openLoop, _, reference, _ => (.openLoop, reference)
  | .proportional Kp gamma, measurement, reference, _ =>
      (.proportional Kp gamma, Kp * (gamma * reference - measurement))
  | .pid Kp Ki Kd gamma error0 ierror0, measurement, reference, period =>
      let error := gamma * reference - measurement
      let de := (error - error0) / period
      let ierror := ierror0 + period * (error + error0) / 2
      (.pid Kp Ki Kd gamma error ierror, Kp * error + Ki * ierror + Kd * de)
  | .velocity measurement0 _ inner, measurement, reference, period =>
      let vel := (measurement - measurement0) / period
      (.velocity measurement vel (inner.update vel reference period).1,
       (inner.update vel reference period).2)

/-- Iterated `update` with the measurement, reference and period held
fixed, keeping only the mutated algorithm state. -/
def pidIter : ControlAlgorithm → ℚ → ℚ → ℚ → ℕ → ControlAlgorithm
  | a, _, _, _, 0 => a
  | a, measurement, reference, period, n + 1 =>
      pidIter ((a.update measurement reference period).1)
        measurement reference period n

/-- The stored integral term `self.ierror` of a PID algorithm state. -/
def ControlAlgorithm.ierrorOf : ControlAlgorithm → ℚ
  | .pid _ _ _ _ _ ierror => ierror
  | _ => 0

/-- The stored `self.velocity` of a VelocityController state. -/
def ControlAlgorithm.velOf : ControlAlgorithm → ℚ
  | .velocity _ vel _ => vel
  | _ => 0

/-- Successive algorithm states produced by feeding a list of measurements
through `update` with the reference and period held fixed. -/
def ControlAlgorithm.run (a : ControlAlgorithm) (reference period : ℚ) :
    List ℚ → List ControlAlgorithm
  | [] => []
  | m :: rest =>
      (a.update m reference period).1 ::
        ((a.update m reference period).1.run reference period rest)

/-- One row of the data log (Controller.py lines 169-171):
`(time_stamp, encoder1, reference1, pwm1, encoder2, reference2, pwm2)`. -/
structure LogRow where
  timestamp : ℚ
  encoder1 : ℚ
  reference1 : ℚ
  pwm1 : ℚ
  encoder2 : ℚ
  reference2 : ℚ
  pwm2 : ℚ
deriving DecidableEq, Inhabited

/-- The mutable state of the `Controller` object (Controller.py lines
83-113): loop parameters, the log buffer (`data` plus the `current` and
`page` cursors), both motors, both bound algorithms and both references. -/
structure Controller where
  period : ℚ
  echo : ℤ
  echo_counter : ℤ
  is_running : Bool
  data : List LogRow
  current : ℕ
  page : ℕ
  motor1_on : Bool
  motor1_pwm : ℚ
  motor1_dir : ℤ
  motor2_on : Bool
  motor2_pwm : ℚ
  motor2_dir : ℤ
  controller1 : Option ControlAlgorithm
  controller2 : Option ControlAlgorithm
  reference1_mode : ℤ
  reference1 : ℚ
  reference2_mode : ℤ
  reference2 : ℚ
deriving DecidableEq

/-- `set_period(self, value)` (Controller.py lines 237-238). -/
def Controller.set_period (s : Controller) (value : ℚ) : Controller :=
  { s with period := value }

/-- `set_motor1_pwm(self, value)` (Controller.py lines 265-271). -/
def Controller.set_motor1_pwm (s : Controller) (value : ℚ) : Controller :=
  if value > 0 then { s with motor1_pwm := value, motor1_dir := 1 }
  else { s with motor1_pwm := -value, motor1_dir := -1 }

/-- `set_motor2_pwm(self, value)` (Controller.py lines 273-279). -/
def Controller.set_motor2_pwm (s : Controller) (value : ℚ) : Controller :=
  if value > 0 then { s with motor2_pwm := value, motor2_dir := 1 }
  else { s with motor2_pwm := -value, motor2_dir := -1 }

/-- `reset_logger(self)` (Controller.py lines 119-122): zero the cursors
without reallocating the storage (the time origin is not modelled). -/
def Controller.reset_logger (s : Controller) : Controller :=
  { s with page := 0, current := 0 }

/-- The actuation clamp of the tick body (Controller.py lines 154-157 and
162-165): positive values to `min(v, 100)`, the rest to `max(v, -100)`. -/
def clamp (v : ℚ) : ℚ :=
  if v > 0 then min v 100 else max v (-100)

/-- The data-logging portion of the tick body `_run` (Controller.py lines
169-179): write the row at `current`, then either advance `current` or
wrap it to 0 and increment `page`. -/
def Controller.log_append (s : Controller) (row : LogRow) : Controller :=
  if s.current < s.data.length - 1 then
    { s with data := s.data.set s.current row, current := s.current + 1 }
  else
    { s with data := s.data.set s.current row, current := 0, page := s.page + 1 }

/-- `m` consecutive executions of the logging portion of the tick body,
appending the rows `r t0, r (t0+1), ...` in order. -/
def Controller.log_appendN (s : Controller) (r : ℕ → LogRow) :
    ℕ → ℕ → Controller
  | _, 0 => s
  | t0, m + 1 => (s.log_append (r t0)).log_appendN r (t0 + 1) m

/-- `get_log(self)` (Controller.py lines 124-129): the chronological
snapshot of the circular log buffer. -/
def Controller.get_log (s : Controller) : List LogRow :=
  if s.page = 0 then s.data.take s.current
  else s.data.drop s.current ++ s.data.take s.current

/-- The unpacked payload of a protocol frame, as the dynamically typed
value `handle` passes around (string, integer, float, or the character of
a command/acknowledge frame). -/
inductive Val : Type
  | str (s : String) : Val
  | int (z : ℤ) : Val
  | rat (q : ℚ) : Val
  | chr (c : Char) : Val
deriving DecidableEq

/-- Modelled from the spec: Packet.py is imported by TCPServerFile.py but
is not under src/, so protocol frames follow spec section 4.4 — a tagged
value with tags S/I/F/C/A, where command and acknowledge frames carry a
code.  The acknowledge payload is kept as a `Val` because `handle` echoes
back whatever value it unpacked. -/
inductive Frame : Type
  | string (s : String) : Frame
  | integer (z : ℤ) : Frame
  | float (q : ℚ) : Frame
  | command (c : Char) : Frame
  | acknowledge (v : Val) : Frame
deriving DecidableEq

/-- The 1-byte type tag of a frame (spec section 4.4), the first component
of what `Packet.unpack_stream` returns. -/
def Frame.tag : Frame → Char
  | .string _ => 'S'
  | .integer _ => 'I'
  | .float _ => 'F'
  | .command _ => 'C'
  | .acknowledge _ => 'A'

/-- The unpacked value of a frame, the second component of what
`Packet.unpack_stream` returns. -/
def Frame.val : Frame → Val
  | .string s => .str s
  | .integer z => .int z
  | .float q => .rat q
  | .command c => .chr c
  | .acknowledge v => v

/-- The expected-argument tag of a command-table entry (TCPServerFile.py
lines 22-45): an empty tag, or one additional frame of integer, float or
string type. -/
inductive ArgType : Type
  | none : ArgType
  | int : ArgType
  | float : ArgType
  | str : ArgType
deriving DecidableEq

/-- A bound controller operation: the mutated controller together with the
optional response text (every responding method of Controller.py returns a
pair of the tag S and a text). -/
def COp : Type := Controller → Option Val → Controller × Option String

/-- What a command-table entry's `self.controller.X` (or `self.finish`)
attribute access resolves to when the table is built (TCPServerFile.py
lines 22-45): a bound method, the non-callable instance attribute
`controller.echo = 0` which shadows the `echo` method, a missing attribute
(AttributeError), or the handler's stdlib `finish`. -/
inductive BoundTarget : Type
  | method (f : COp) : BoundTarget
  | attr_int (z : ℤ) : BoundTarget
  | missing (name : String) : BoundTarget
  | finish : BoundTarget

/-- Numeric payload coercion for the one table operation that stores its
argument (`set_period`). -/
def valToRat : Option Val → ℚ
  | some (Val.int z) => (z : ℚ)
  | some (Val.rat q) => q
  | _ => 0

def dashes : String :=
  "----------------------------------------------------------------------"

/-- The text returned by `Controller.help` (Controller.py lines 287-327). -/
def helpText : String :=
  "\n" ++ dashes ++
  "\n% General commands:\n% > e - Echo message\n% > H - Help\n% > s - Status and configuration\n% > S - Compact status and configuration\n% > R - Read sensor, control and target\n\n% Encoder commands:\n% > Z - Zero encoder count\n\n% Loop commands:\n% > P int\t- set loop Period\n% > E int\t- set Echo divisor\n% > L [01]\t- run Loop (on/off)\n\n% Motor commands:\n% > G int\t- set motor Gain\n% > V\t\t- reVerse motor direction\n% > F [0123]\t- set PWM Frequency\n% > Q [012]\t- set motor curve\n% > M\t\t- start/stop Motors\n\n% Target commands:\n% > T int\t- set Target\n% > B int\t- set target zero\n% > O\t\t- read target pOtentiometer\n% > D [01]\t- set target mode (int/pot)\n\n% Controller commands:\n% > K float\t- set proportional gain\n% > I float\t- set Integral gain\n% > N float\t- set derivative gain\n% > Y [0123]\t- control mode (position/velocitY/open loop/off)\n% > C\t\t- start/stop Controller\n% > r - Read values\n% > X - Finish / Break\n" ++
  dashes ++ "\n"

/-- The text returned by `Controller.get_status` (lines 329-334). -/
def statusText : String :=
  "\n" ++ dashes ++ "\n% > s - Status and configuration\n" ++ dashes ++ "\n"

/-- The text returned by `Controller.read_sensor` (lines 336-341). -/
def readSensorText : String :=
  "\n" ++ dashes ++ "\n% > R - Read sensor, control and target\n" ++ dashes ++ "\n"

/-- The text returned by `Controller.reverse_motor_direction` (lines 353-358). -/
def reverseMotorText : String :=
  "\n" ++ dashes ++ "\n% > V\t\t- reVerse motor direction\n" ++ dashes ++ "\n"

/-- The text returned by `Controller.start_stop_motor` (lines 366-371). -/
def startStopMotorText : String :=
  "\n" ++ dashes ++ "\n% > M\t\t- start/stop Motor\n" ++ dashes ++ "\n"

/-- The text returned by `Controller.read_target_potentiometer` (lines 379-384). -/
def readTargetPotText : String :=
  "\n" ++ dashes ++ "\n% > O\t\t- read target pOtentiometer\n" ++ dashes ++ "\n"

/-- The text returned by `Controller.start_stop_controller` (lines 401-406). -/
def startStopControllerText : String :=
  "\n" ++ dashes ++ "\n% > C\t\t- start/stop Controller\n" ++ dashes ++ "\n"

/-- The text returned by `Controller.read_values` (lines 408-413). -/
def readValuesText : String :=
  "\n" ++ dashes ++ "\n% > r - Read values\n" ++ dashes ++ "\n"

def op_help : COp := fun s _ => (s, some (helpText))

def op_get_status : COp := fun s _ => (s, some (statusText))

def op_read_sensor : COp := fun s _ => (s, some (readSensorText))

/-- `set_period` invoked through the table with the unpacked argument. -/
def op_set_period : COp := fun s v => (s.set_period (valToRat v), none)

def op_set_echo_divisor : COp := fun s _ => (s, none)

def op_run_loop : COp := fun s _ => (s, none)

def op_set_motor_gain : COp := fun s _ => (s, none)

def op_reverse_motor_direction : COp := fun s _ => (s, some (reverseMotorText))

def op_set_PWM_frequency : COp := fun s _ => (s, none)

def op_set_motor_curve : COp := fun s _ => (s, none)

def op_start_stop_motor : COp := fun s _ => (s, some (startStopMotorText))

def op_set_target : COp := fun s _ => (s, none)

def op_set_target_zero : COp := fun s _ => (s, none)

def op_read_target_potentiometer : COp :=
  fun s _ => (s, some (readTargetPotText))

def op_set_target_mode : COp := fun s _ => (s, none)

def op_set_proportional_gain : COp := fun s _ => (s, none)

def op_set_integral_gain : COp := fun s _ => (s, none)

def op_set_derivative_gain : COp := fun s _ => (s, none)

def op_control_mode : COp := fun s _ => (s, none)

def op_start_stop_controller : COp :=
  fun s _ => (s, some (startStopControllerText))

def op_read_values : COp := fun s _ => (s, some (readValuesText))

/-- The per-session command table `self.commands` (TCPServerFile.py lines
22-45).  The entry for 'e' resolves to the integer instance attribute
`controller.echo = 0`, not to the `echo` method, because `__init__` sets
the attribute and instance attributes shadow class methods; the entry for
'Z' names `set_encoder`, which `Controller` does not define. -/
def commands : Char → Option (ArgType × BoundTarget)
  | 'e' => some (ArgType.str, BoundTarget.attr_int 0)
  | 'H' => some (ArgType.none, BoundTarget.method op_help)
  | 's' => some (ArgType.none, BoundTarget.method op_get_status)
  | 'R' => some (ArgType.none, BoundTarget.method op_read_sensor)
  | 'Z' => some (ArgType.none, BoundTarget.missing ("set_encoder"))
  | 'P' => some (ArgType.int, BoundTarget.method op_set_period)
  | 'E' => some (ArgType.int, BoundTarget.method op_set_echo_divisor)
  | 'L' => some (ArgType.int, BoundTarget.method op_run_loop)
  | 'G' => some (ArgType.int, BoundTarget.method op_set_motor_gain)
  | 'V' => some (ArgType.none, BoundTarget.method op_reverse_motor_direction)
  | 'F' => some (ArgType.int, BoundTarget.method op_set_PWM_frequency)
  | 'Q' => some (ArgType.int, BoundTarget.method op_set_motor_curve)
  | 'M' => some (ArgType.none, BoundTarget.method op_start_stop_motor)
  | 'T' => some (ArgType.int, BoundTarget.method op_set_target)
  | 'B' => some (ArgType.int, BoundTarget.method op_set_target_zero)
  | 'O' => some (ArgType.none, BoundTarget.method op_read_target_potentiometer)
  | 'D' => some (ArgType.int, BoundTarget.method op_set_target_mode)
  | 'K' => some (ArgType.float, BoundTarget.method op_set_proportional_gain)
  | 'I' => some (ArgType.float, BoundTarget.method op_set_integral_gain)
  | 'N' => some (ArgType.float, BoundTarget.method op_set_derivative_gain)
  | 'Y' => some (ArgType.int, BoundTarget.method op_control_mode)
  | 'C' => some (ArgType.none, BoundTarget.method op_start_stop_controller)
  | 'r' => some (ArgType.none, BoundTarget.method op_read_values)
  | 'X' => some (ArgType.none, BoundTarget.finish)
  | _ => Option.none

/-- How a dispatch iteration of `handle` can fail: the ValueError from
unpacking the empty-string default of `self.commands.get(code, '')`
(line 64), the AttributeError of a binding that names a missing
controller attribute, the TypeError of calling the non-callable integer
attribute, or a missing argument frame on the stream. -/
inductive DispatchError : Type
  | unpackDefault : DispatchError
  | attributeMissing (name : String) : DispatchError
  | notCallable : DispatchError
  | missingArgument : DispatchError
deriving DecidableEq

/-- The optional response written back before the acknowledgement
(TCPServerFile.py lines 81-84): one string frame when the invoked
operation returned a message, nothing otherwise. -/
def respFrames : Option String → List Frame
  | some s => [Frame.string s]
  | none => []

/-- Invoke the resolved target of a command-table entry and produce the
frames written for this command (lines 74-88): the optional response
frame, then always the acknowledge frame carrying the original command
code.  The final flag is whether the session loop continues (the 'X'
binding, stdlib `finish`, ends the session per spec section 4.5). -/
def runTarget (ctrl : Controller) (code : Char) :
    BoundTarget → Option Val → Except DispatchError (Controller × List Frame × Bool)
  | BoundTarget.attr_int _, _ => Except.error DispatchError.notCallable
  | BoundTarget.missing nm, _ => Except.error (DispatchError.attributeMissing nm)
  | BoundTarget.finish, _ =>
      Except.ok (ctrl, [Frame.acknowledge (Val.chr code)], false)
  | BoundTarget.method f, arg =>
      Except.ok ((f ctrl arg).1,
        respFrames (f ctrl arg).2 ++ [Frame.acknowledge (Val.chr code)], true)

def quoteCh : Char := Char.ofNat 39

/-- The synthesized response for a non-command frame (TCPServerFile.py
lines 77-79). -/
def commandExpected (f : Frame) : String :=
  "Command expected, " ++ String.singleton quoteCh ++
    String.singleton f.tag ++ String.singleton quoteCh ++ " received"

/-- One iteration of the session loop of `handle` (TCPServerFile.py lines
51-88) applied to the frame just read and to the next frame available on
the stream (consumed only when the entry expects an argument): the mutated
controller, the frames written back, and whether the loop continues. -/
def handleStep (ctrl : Controller) (frame : Frame) (next : Option Frame) :
    Except DispatchError (Controller × List Frame × Bool) :=
  match frame with
  | Frame.command code =>
    match commands code with
    | Option.none => Except.error DispatchError.unpackDefault
    | some (a, tgt) =>
      match a, next with
      | ArgType.none, _ => runTarget ctrl code tgt Option.none
      | _, Option.none => Except.error DispatchError.missingArgument
      | _, some fr => runTarget ctrl code tgt (some fr.val)
  | fr =>
    Except.ok (ctrl,
      [Frame.string (commandExpected fr), Frame.acknowledge fr.val], true)

/-- The method name each command-table entry binds, exactly as written in
TCPServerFile.py lines 22-45 ('X' binds the handler's own `finish`; every
other entry binds an attribute of `self.controller`). -/
def commandTableMethodNames : List (Char × String) :=
  [('e', "echo"), ('H', "help"), ('s', "get_status"), ('R', "read_sensor"),
   ('Z', "set_encoder"), ('P', "set_period"), ('E', "set_echo_divisor"),
   ('L', "run_loop"), ('G', "set_motor_gain"),
   ('V', "reverse_motor_direction"), ('F', "set_PWM_frequency"),
   ('Q', "set_motor_curve"), ('M', "start_stop_motor"), ('T', "set_target"),
   ('B', "set_target_zero"), ('O', "read_target_potentiometer"),
   ('D', "set_target_mode"), ('K', "set_proportional_gain"),
   ('I', "set_integral_gain"), ('N', "set_derivative_gain"),
   ('Y', "control_mode"), ('C', "start_stop_controller"),
   ('r', "read_values"), ('X', "finish")]

/-- The names of the methods the `Controller` class defines
(Controller.py lines 83-413). -/
def controllerMethods : List String :=
  ["__init__", "set_logger", "reset_logger", "get_log", "_run", "_start",
   "start", "stop", "set_period", "read_sensors", "set_controller1",
   "set_controller2", "set_encoder1", "set_encoder2", "set_reference1",
   "set_reference2", "set_motor1_pwm", "set_motor2_pwm", "set_echo",
   "echo", "help", "get_status", "read_sensor", "set_echo_divisor",
   "run_loop", "set_motor_gain", "reverse_motor_direction",
   "set_PWM_frequency", "set_motor_curve", "start_stop_motor",
   "set_target", "set_target_zero", "read_target_potentiometer",
   "set_target_mode", "set_proportional_gain", "set_integral_gain",
   "set_derivative_gain", "control_mode", "start_stop_controller",
   "read_values"]

/-- The numpy shape of a row-major matrix: (number of rows, width of the
first row).  `[[]]` has shape (1, 0), numpy's empty default for `A` and
`C` in `DTSS.__init__`. -/
def mshape (M : List (List ℚ)) : ℕ × ℕ := (M.length, (M.headD []).length)

/-- The DTSS state-space model object (ctrl/system/ss.py lines 5-49). -/
structure DTSS where
  A : List (List ℚ)
  B : List (List ℚ)
  C : List (List ℚ)
  D : List (List ℚ)
  state : List (List ℚ)
deriving DecidableEq

/-- `DTSS.__init__` (ctrl/system/ss.py lines 15-45): the dimension asserts
of lines 28-32, then the state of shape (n, 1) — zeros when no state is
passed, the given state when its shape matches, and a SysException
otherwise.  A failed assert or the raised exception is `none`: no model
object is produced. -/
def DTSS.init (A B C D : List (List ℚ)) (state : Option (List (List ℚ))) :
    Option DTSS :=
  if (mshape A = (1, 0) ∨ (mshape A).1 = (mshape A).2) ∧
     (mshape A).1 = (mshape B).1 ∧
     (mshape C).1 = (mshape D).1 ∧
     (mshape A).2 = (mshape C).2 ∧
     (mshape B).2 = (mshape D).2 then
    match state with
    | Option.none => some ⟨A, B, C, D, List.replicate (mshape A).1 [0]⟩
    | some st =>
        if mshape st = ((mshape A).1, 1) then some ⟨A, B, C, D, st⟩
        else Option.none
  else Option.none

/-- A small concrete controller state used by the witnesses: default
scalar fields and a freshly reset two-row log buffer. -/
def ctrl0 : Controller where
  period := 1
  echo := 0
  echo_counter := 0
  is_running := false
  data := [default, default]
  current := 0
  page := 0
  motor1_on := false
  motor1_pwm := 0
  motor1_dir := 1
  motor2_on := false
  motor2_pwm := 0
  motor2_dir := 1
  controller1 := some ControlAlgorithm.openLoop
  controller2 := Option.none
  reference1_mode := 0
  reference1 := 0
  reference2_mode := 0
  reference2 := 0

/-- A concrete strictly increasing row sequence used by the witnesses. -/
def rowSeq (i : ℕ) : LogRow :=
  { timestamp := (i : ℚ), encoder1 := 0, reference1 := 0, pwm1 := 0,
    encoder2 := 0, reference2 := 0, pwm2 := 0 }

/-- C6: the actuation clamp of the tick body maps every value into
[-100, 100], is the identity on values of magnitude at most 100, and
preserves the sign of every nonzero value. -/
theorem clamp_bounds_identity_sign (v : ℚ) :
    (-100 ≤ clamp v ∧ clamp v ≤ 100) ∧
    (|v| ≤ 100 → clamp v = v) ∧
    (v ≠ 0 → SignType.sign (clamp v) = SignType.sign v) := by
  unfold clamp
  by_cases h : v > 0
  · rw [if_pos h]
    refine ⟨⟨?_, min_le_right _ _⟩, ?_, ?_⟩
    · have h1 : (0 : ℚ) < min v 100 := lt_min h (by norm_num)
      linarith
    · intro hv; exact min_eq_left (abs_le.mp hv).2
    · intro _
      have h1 : (0 : ℚ) < min v 100 := lt_min h (by norm_num)
      rw [sign_pos h1, sign_pos h]
  · rw [if_neg h]
    push_neg at h
    refine ⟨⟨le_max_right _ _, max_le (by linarith) (by norm_num)⟩, ?_, ?_⟩
    · intro hv; exact max_eq_left (abs_le.mp hv).1
    · intro hv0
      have hneg : v < 0 := lt_of_le_of_ne h hv0
      have h1 : max v (-100) < 0 := max_lt hneg (by norm_num)
      rw [sign_neg h1, sign_neg hneg]

/-- Witness for C6 at the concrete inputs 50 and -150. -/
theorem clamp_bounds_identity_sign_witness :
    clamp 50 = 50 ∧
    SignType.sign (clamp (-150 : ℚ)) = SignType.sign (-150 : ℚ) :=
  ⟨(clamp_bounds_identity_sign 50).2.1 (by norm_num),
   (clamp_bounds_identity_sign (-150)).2.2 (by norm_num)⟩

/-- C9: `set_period` changes only the period field; the log storage, its
capacity and the current/page cursors are untouched. -/
theorem set_period_only_changes_period (s : Controller) (v : ℚ) :
    (s.set_period v).period = v ∧
    (s.set_period v).data = s.data ∧
    (s.set_period v).data.length = s.data.length ∧
    (s.set_period v).current = s.current ∧
    (s.set_period v).page = s.page := by
  simp [Controller.set_period]

/-- C10: after `set_motor1_pwm(v)` (and symmetrically `set_motor2_pwm`)
the stored pwm is the magnitude of v, hence nonnegative, and the stored
direction is 1 exactly when v is positive and -1 otherwise; in particular
v = 0 stores magnitude 0 with direction -1. -/
theorem motor_pwm_stores_magnitude_and_direction (s : Controller) (v : ℚ) :
    (s.set_motor1_pwm v).motor1_pwm = |v| ∧
    0 ≤ (s.set_motor1_pwm v).motor1_pwm ∧
    (s.set_motor1_pwm v).motor1_dir = (if v > 0 then 1 else -1) ∧
    (s.set_motor2_pwm v).motor2_pwm = |v| ∧
    0 ≤ (s.set_motor2_pwm v).motor2_pwm ∧
    (s.set_motor2_pwm v).motor2_dir = (if v > 0 then 1 else -1) ∧
    (s.set_motor1_pwm 0).motor1_pwm = 0 ∧
    (s.set_motor1_pwm 0).motor1_dir = -1 := by
  by_cases h : v > 0
  · simp [Controller.set_motor1_pwm, Controller.set_motor2_pwm, h,
      abs_of_pos h, le_of_lt h]
  · simp [Controller.set_motor1_pwm, Controller.set_motor2_pwm, h,
      abs_of_nonpos (le_of_not_lt h), neg_nonneg.mpr (le_of_not_lt h)]

/-- C2 evidence: a command frame whose code is not a key of the command
table makes the dispatch iteration fail with the ValueError raised by
unpacking the empty-string default of `self.commands.get(code, '')` —
there is no no-op fallback, no acknowledgement, and the loop does not
continue. -/
theorem unknown_code_aborts_dispatch (ctrl : Controller) (next : Option Frame) :
    handleStep ctrl (Frame.command 'z') next =
      Except.error DispatchError.unpackDefault := rfl

/-- C7 evidence: the command-table entry for 'Z' binds the attribute name
`set_encoder`, which the Controller class does not define (it defines
`set_encoder1` and `set_encoder2`); `simulate_data`, also accessed when a
session is constructed, is missing as well, so the session fails before
any frame is handled. -/
theorem zero_encoder_binding_missing :
    List.lookup 'Z' commandTableMethodNames = some ("set_encoder") ∧
    ("set_encoder" ∉ controllerMethods) ∧
    ("set_encoder1" ∈ controllerMethods) ∧
    ("set_encoder2" ∈ controllerMethods) ∧
    ("simulate_data" ∉ controllerMethods) := by
  decide

/-- C8: constructing the DTSS model with dimensionally incompatible
matrices (A non-empty and not square, row-count mismatches between A and
B or C and D, column-count mismatches between A and C or B and D, or a
given state whose shape is not (order of A, 1)) produces no model
object. -/
theorem dtss_incompatible_rejected (A B C D : List (List ℚ))
    (state : Option (List (List ℚ)))
    (h : (1 ≤ (mshape A).1 ∧ 1 ≤ (mshape A).2 ∧ (mshape A).1 ≠ (mshape A).2) ∨
         (mshape A).1 ≠ (mshape B).1 ∨
         (mshape C).1 ≠ (mshape D).1 ∨
         (mshape A).2 ≠ (mshape C).2 ∨
         (mshape B).2 ≠ (mshape D).2 ∨
         (∃ st, state = some st ∧ mshape st ≠ ((mshape A).1, 1))) :
    DTSS.init A B C D state = Option.none := by
  unfold DTSS.init
  by_cases hg : (mshape A = (1, 0) ∨ (mshape A).1 = (mshape A).2) ∧
      (mshape A).1 = (mshape B).1 ∧ (mshape C).1 = (mshape D).1 ∧
      (mshape A).2 = (mshape C).2 ∧ (mshape B).2 = (mshape D).2
  · rw [if_pos hg]
    rcases h with ⟨hr, hc, hne⟩ | h2 | h3 | h4 | h5 | ⟨st, rfl, hst⟩
    · rcases hg.1 with h10 | hsq
      · rw [h10] at hc; simp at hc
      · exact absurd hsq hne
    · exact absurd hg.2.1 h2
    · exact absurd hg.2.2.1 h3
    · exact absurd hg.2.2.2.1 h4
    · exact absurd hg.2.2.2.2 h5
    · simp [hst]
  · rw [if_neg hg]

/-- Witness for C8: the 1-by-2 (non-empty, non-square) matrix A with the
source defaults for B, C, D and no given state is rejected. -/
theorem dtss_incompatible_rejected_witness :
    DTSS.init [[1, 2]] [[0]] [[]] [[1]] Option.none = Option.none :=
  dtss_incompatible_rejected [[1, 2]] [[0]] [[]] [[1]] Option.none
    (Or.inl (by decide))

/-- The response written for an operation result is one string frame when
the operation returned a message and nothing otherwise. -/
theorem respFrames_spec (o : Option String) :
    (respFrames o).length ≤ 1 ∧
    (∀ s, o = some s → respFrames o = [Frame.string s]) ∧
    (o = Option.none → respFrames o = []) := by
  cases o <;> simp [respFrames]

/-- C4: for every command frame whose table entry resolves to an
invokable target (a bound method, or the session-ending `finish`) and
whose required argument frame is available, the dispatch iteration writes
the optional response frame — exactly one frame when the operation yields
a response, none otherwise — followed by the acknowledge frame carrying
the original command code, unconditionally. -/
theorem command_ack_follows_response (ctrl : Controller) (code : Char)
    (a : ArgType) (tgt : BoundTarget) (next : Option Frame)
    (hc : commands code = some (a, tgt))
    (hcall : (∀ z, tgt ≠ BoundTarget.attr_int z) ∧
             (∀ nm, tgt ≠ BoundTarget.missing nm))
    (ha : a = ArgType.none ∨ next.isSome = true) :
    ∃ ctrl2 resp cont,
      handleStep ctrl (Frame.command code) next =
        Except.ok (ctrl2,
          respFrames resp ++ [Frame.acknowledge (Val.chr code)], cont) ∧
      (respFrames resp).length ≤ 1 ∧
      (∀ s, resp = some s → respFrames resp = [Frame.string s]) ∧
      (resp = Option.none → respFrames resp = []) := by
  have hstep : ∃ arg, handleStep ctrl (Frame.command code) next =
      runTarget ctrl code tgt arg := by
    cases a with
    | none => exact ⟨Option.none, by simp [handleStep, hc]⟩
    | int =>
        cases next with
        | none => simp at ha
        | some fr => exact ⟨some fr.val, by simp [handleStep, hc]⟩
    | float =>
        cases next with
        | none => simp at ha
        | some fr => exact ⟨some fr.val, by simp [handleStep, hc]⟩
    | str =>
        cases next with
        | none => simp at ha
        | some fr => exact ⟨some fr.val, by simp [handleStep, hc]⟩
  obtain ⟨arg, harg⟩ := hstep
  rw [harg]
  cases tgt with
  | attr_int z => exact absurd rfl (hcall.1 z)
  | missing nm => exact absurd rfl (hcall.2 nm)
  | finish =>
      exact ⟨ctrl, Option.none, false, rfl, (respFrames_spec _).1,
        (respFrames_spec _).2.1, (respFrames_spec _).2.2⟩
  | method f =>
      exact ⟨(f ctrl arg).1, (f ctrl arg).2, true, rfl, (respFrames_spec _).1,
        (respFrames_spec _).2.1, (respFrames_spec _).2.2⟩

/-- Witness for C4 at the concrete command 'H' (help, no argument). -/
theorem command_ack_follows_response_witness :
    ∃ ctrl2 resp cont,
      handleStep ctrl0 (Frame.command 'H') Option.none =
        Except.ok (ctrl2,
          respFrames resp ++ [Frame.acknowledge (Val.chr 'H')], cont) ∧
      (respFrames resp).length ≤ 1 ∧
      (∀ s, resp = some s → respFrames resp = [Frame.string s]) ∧
      (resp = Option.none → respFrames resp = []) :=
  command_ack_follows_response ctrl0 'H' ArgType.none
    (BoundTarget.method op_help) Option.none rfl
    ⟨fun _ h => BoundTarget.noConfusion h, fun _ h => BoundTarget.noConfusion h⟩
    (Or.inl rfl)

/-- Once the stored error of a PID state already equals the constant error
e, every further `update` leaves the error at e and grows the integral by
exactly T times e (the trapezoid is flat). -/
theorem pidIter_const_error (Kp Ki Kd gamma measurement reference T e : ℚ)
    (he : gamma * reference - measurement = e) :
    ∀ (n : ℕ) (I : ℚ),
      pidIter (ControlAlgorithm.pid Kp Ki Kd gamma e I)
          measurement reference T n =
        ControlAlgorithm.pid Kp Ki Kd gamma e (I + n * (T * e)) := by
  intro n
  induction n with
  | zero => intro I; simp [pidIter]
  | succ m ih =>
      intro I
      rw [pidIter]
      simp only [ControlAlgorithm.update, he]
      rw [ih]
      congr 1
      push_cast
      ring

/-- C1 counterexample: with gains Kp = Ki = 1, Kd = 0, gamma = 1, a fresh
PID state (error 0, integral 0), measurement 0 and reference 2 (so the
error is constantly e = 2), period T = 1 and n = 1 call, the stored
integral is 1, not e*T*n = 2. -/
theorem pid_integral_claim_counterexample :
    ¬ (pidIter (ControlAlgorithm.pid 1 1 0 1 0 0) 0 2 1 1).ierrorOf
        = 2 * 1 * 1 := by
  norm_num [pidIter, ControlAlgorithm.update, ControlAlgorithm.ierrorOf]

/-- C1 amended: from a fresh PID state (stored error 0, integral 0), n
calls (n at least 1) of `update` under a constant error e = gamma *
reference - measurement and fixed period T > 0 leave the stored integral
at e * T * (2n - 1) / 2 — the first trapezoid starts from the initial
error 0 and contributes only e*T/2, every later one contributes e*T. -/
theorem pid_integral_constant_error (Kp Ki Kd gamma measurement reference T : ℚ)
    (n : ℕ) (hT : 0 < T) (hn : 1 ≤ n) :
    (pidIter (ControlAlgorithm.pid Kp Ki Kd gamma 0 0)
        measurement reference T n).ierrorOf =
      (gamma * reference - measurement) * T * (2 * n - 1) / 2 := by
  obtain ⟨m, rfl⟩ : ∃ m, n = m + 1 := ⟨n - 1, by omega⟩
  rw [pidIter]
  simp only [ControlAlgorithm.update]
  rw [pidIter_const_error Kp Ki Kd gamma measurement reference T _ rfl]
  simp only [ControlAlgorithm.ierrorOf]
  push_cast
  ring

/-- Witness for C1 amended: e = 2, T = 1, n = 2 gives integral 3 =
2 * 1 * (2*2 - 1) / 2. -/
theorem pid_integral_constant_error_witness :
    (pidIter (ControlAlgorithm.pid 1 1 0 1 0 0) 0 2 1 2).ierrorOf =
      (1 * 2 - 0) * 1 * (2 * ((2 : ℕ) : ℚ) - 1) / 2 :=
  pid_integral_constant_error 1 1 0 1 0 2 1 2 (by norm_num) (by norm_num)

/-- Velocity states fed through `run` keep the velocity field at the
difference quotient of the current and previous measurements, where the
previous measurement of step 0 is the stored one. -/
theorem run_velocity_velOf (reference T : ℚ) :
    ∀ (ms : List ℚ) (prev v0 : ℚ) (inner : ControlAlgorithm) (i : ℕ),
      i < ms.length →
      (((ControlAlgorithm.velocity prev v0 inner).run reference T ms).getD i
          ControlAlgorithm.openLoop).velOf =
        (ms.getD i 0 - (if i = 0 then prev else ms.getD (i - 1) 0)) / T := by
  intro ms
  induction ms with
  | nil => intro prev v0 inner i h; simp at h
  | cons m rest ih =>
      intro prev v0 inner i h
      cases i with
      | zero =>
          simp [ControlAlgorithm.run, ControlAlgorithm.update,
            ControlAlgorithm.velOf]
      | succ j =>
          have hj : j < rest.length := by simpa using h
          have hrec := ih m ((m - prev) / T)
            ((inner.update ((m - prev) / T) reference T).1) j hj
          cases j with
          | zero =>
              simpa [ControlAlgorithm.run, ControlAlgorithm.update]
                using hrec
          | succ j' =>
              simpa [ControlAlgorithm.run, ControlAlgorithm.update]
                using hrec

/-- C5: the Velocity wrapper constructed with previous measurement 0, fed
measurements m0..mk at fixed period T > 0, computes (and hands its inner
algorithm) velocity (mi - m(i-1)) / T at every step i, and m0 / T at step
0. -/
theorem velocity_wrapper_difference_quotient (inner : ControlAlgorithm)
    (reference T : ℚ) (ms : List ℚ) (i : ℕ)
    (hT : 0 < T) (hi : i < ms.length) :
    (((ControlAlgorithm.velocity 0 0 inner).run reference T ms).getD i
        ControlAlgorithm.openLoop).velOf =
      (ms.getD i 0 - (if i = 0 then 0 else ms.getD (i - 1) 0)) / T :=
  run_velocity_velOf reference T ms 0 0 inner i hi

/-- Witness for C5: measurements [3, 5] with T = 1; the velocity at step 1
is (5 - 3) / 1. -/
theorem velocity_wrapper_difference_quotient_witness :
    (((ControlAlgorithm.velocity 0 0 ControlAlgorithm.openLoop).run 0 1
        [3, 5]).getD 1 ControlAlgorithm.openLoop).velOf =
      (([3, 5] : List ℚ).getD 1 0 -
        (if 1 = 0 then 0 else ([3, 5] : List ℚ).getD (1 - 1) 0)) / 1 :=
  velocity_wrapper_difference_quotient ControlAlgorithm.openLoop 0 1 [3, 5] 1
    (by norm_num) (by norm_num)

/-- Setting index i and then taking i+1 elements keeps the prefix and ends
with the written element. -/
theorem list_take_set_succ {α : Type} (l : List α) (i : ℕ) (a : α)
    (h : i < l.length) :
    (l.set i a).take (i + 1) = l.take i ++ [a] := by
  induction l generalizing i with
  | nil => simp at h
  | cons x xs ih =>
      cases i with
      | zero => simp
      | succ j =>
          have hj : j < xs.length := by simpa using h
          simp [ih j hj]

/-- Dropping strictly past a written index ignores the write. -/
theorem list_drop_set_of_lt {α : Type} (l : List α) (i j : ℕ) (a : α)
    (h : i < j) :
    (l.set i a).drop j = l.drop j := by
  rw [List.drop_set, if_pos h]

/-- A run of tick-body appends that stays strictly inside the buffer: the
written rows replace the slice starting at `current`, the cursor advances
by the number of rows, and no wraparound happens. -/
theorem log_appendN_no_wrap (r : ℕ → LogRow) :
    ∀ (m : ℕ) (s : Controller) (t0 : ℕ), s.current + m < s.data.length →
      (s.log_appendN r t0 m).data =
        s.data.take s.current ++ (List.range' t0 m).map r ++
          s.data.drop (s.current + m) ∧
      (s.log_appendN r t0 m).current = s.current + m ∧
      (s.log_appendN r t0 m).page = s.page := by
  intro m
  induction m with
  | zero =>
      intro s t0 _
      refine ⟨?_, rfl, rfl⟩
      simp [Controller.log_appendN, List.take_append_drop]
  | succ m ih =>
      intro s t0 h
      have hcur : s.current < s.data.length - 1 := by omega
      have hd' : (s.log_append (r t0)).data = s.data.set s.current (r t0) := by
        unfold Controller.log_append; rw [if_pos hcur]
      have hc' : (s.log_append (r t0)).current = s.current + 1 := by
        unfold Controller.log_append; rw [if_pos hcur]
      have hp' : (s.log_append (r t0)).page = s.page := by
        unfold Controller.log_append; rw [if_pos hcur]
      have hlt' : (s.log_append (r t0)).current + m <
          (s.log_append (r t0)).data.length := by
        rw [hc', hd']; simp; omega
      have hrec := ih (s.log_append (r t0)) (t0 + 1) hlt'
      simp only [Controller.log_appendN]
      refine ⟨?_, ?_, ?_⟩
      · rw [hrec.1, hd', hc']
        rw [list_take_set_succ _ _ _ (by omega),
          list_drop_set_of_lt _ _ _ _ (by omega)]
        rw [List.range'_succ]
        rw [show s.current + 1 + m = s.current + (m + 1) from by omega]
        simp [List.append_assoc]
      · rw [hrec.2.1, hc']; omega
      · rw [hrec.2.2, hp']

/-- The tick-body append that lands on the last slot wraps: the cursor
returns to 0 and the page count increments. -/
theorem log_append_wrap (s : Controller) (row : LogRow)
    (h : ¬ s.current < s.data.length - 1) :
    (s.log_append row).data = s.data.set s.current row ∧
    (s.log_append row).current = 0 ∧
    (s.log_append row).page = s.page + 1 := by
  unfold Controller.log_append; rw [if_neg h]; exact ⟨rfl, rfl, rfl⟩

/-- Splitting a run of tick-body appends. -/
theorem log_appendN_add (r : ℕ → LogRow) :
    ∀ (m1 : ℕ) (s : Controller) (t0 m2 : ℕ),
      s.log_appendN r t0 (m1 + m2) =
        (s.log_appendN r t0 m1).log_appendN r (t0 + m1) m2 := by
  intro m1
  induction m1 with
  | zero => intro s t0 m2; simp [Controller.log_appendN]
  | succ j ih =>
      intro s t0 m2
      rw [show j + 1 + m2 = (j + m2) + 1 from by omega]
      simp only [Controller.log_appendN]
      rw [ih]
      rw [show t0 + 1 + j = t0 + (j + 1) from by omega]

/-- C3: from a reset logger of capacity c (current = 0, page = 0),
appending c + k rows (0 <= k < c) with strictly increasing timestamps via
the tick body and snapshotting with `get_log` yields exactly the last c
rows in order — the snapshot equals `rows[current:capacity) ++
rows[0:current)`, has length c, and its timestamps strictly increase. -/
theorem log_wraparound_snapshot (s : Controller) (c k : ℕ) (r : ℕ → LogRow)
    (hc : 1 ≤ c) (hk : k < c) (hlen : s.data.length = c)
    (hcur : s.current = 0) (hpage : s.page = 0)
    (hts : ∀ i j, i < j → (r i).timestamp < (r j).timestamp) :
    (s.log_appendN r 0 (c + k)).get_log = (List.range' k c).map r ∧
    (s.log_appendN r 0 (c + k)).get_log.length = c ∧
    (s.log_appendN r 0 (c + k)).get_log.Pairwise
      (fun a b => a.timestamp < b.timestamp) ∧
    (s.log_appendN r 0 (c + k)).get_log =
      (s.log_appendN r 0 (c + k)).data.drop (s.log_appendN r 0 (c + k)).current
        ++ (s.log_appendN r 0 (c + k)).data.take
            (s.log_appendN r 0 (c + k)).current := by
  obtain ⟨c', rfl⟩ : ∃ c', c = c' + 1 := ⟨c - 1, by omega⟩
  -- phase 1: the first c' appends stay strictly inside the buffer
  have h1 := log_appendN_no_wrap r c' s 0 (by omega)
  set s1 := s.log_appendN r 0 c' with hs1
  obtain ⟨h1d, h1c, h1p⟩ := h1
  have h1d' : s1.data = (List.range' 0 c').map r ++ s.data.drop c' := by
    rw [h1d, hcur]; simp
  have h1c' : s1.current = c' := by rw [h1c, hcur, Nat.zero_add]
  have h1len : s1.data.length = c' + 1 := by
    rw [h1d']; simp [hlen]
  -- phase 2: the (c'+1)-st append lands on the last slot and wraps
  have hwrap := log_append_wrap s1 (r c') (by rw [h1c', h1len]; omega)
  set s2 := s1.log_append (r c') with hs2
  obtain ⟨h2d, h2c, h2p⟩ := hwrap
  have h2d' : s2.data = (List.range' 0 (c' + 1)).map r := by
    rw [h2d, h1d', h1c']
    rw [List.set_append_right _ _ (by simp)]
    obtain ⟨x, hx⟩ := List.length_eq_one.mp
      (show (s.data.drop c').length = 1 by rw [List.length_drop, hlen]; omega)
    rw [hx]
    simp [List.range'_1_concat]
  have h2len : s2.data.length = c' + 1 := by rw [h2d']; simp
  -- phase 3: k more appends overwrite the first k slots without wrapping
  have h3 := log_appendN_no_wrap r k s2 (c' + 1) (by rw [h2c, h2len]; omega)
  set s3 := s2.log_appendN r (c' + 1) k with hs3
  obtain ⟨h3d, h3c, h3p⟩ := h3
  have h3c' : s3.current = k := by rw [h3c, h2c, Nat.zero_add]
  have h3p' : s3.page = 1 := by rw [h3p, h2p, h1p, hpage]
  have hkc : k + (c' + 1 - k) = c' + 1 := by omega
  have hr01 : List.range' 0 (c' + 1) =
      List.range' 0 k ++ List.range' k (c' + 1 - k) := by
    have h := List.range'_append_1 0 k (c' + 1 - k)
    rw [Nat.zero_add] at h
    rw [show c' + 1 - k + k = c' + 1 from by omega] at h
    exact h.symm
  have h3d' : s3.data = (List.range' (c' + 1) k).map r ++
      (List.range' k (c' + 1 - k)).map r := by
    rw [h3d, h2c, h2d']
    rw [Nat.zero_add, List.take_zero, List.nil_append]
    rw [← List.map_drop, hr01, List.drop_left' (by simp)]
  -- the whole run equals the three phases chained together
  have hsplit : s.log_appendN r 0 (c' + 1 + k) = s3 := by
    rw [show c' + 1 + k = c' + (1 + k) from by omega, log_appendN_add,
      Nat.zero_add]
    rw [show 1 + k = k + 1 from by omega]
    simp only [Controller.log_appendN]
  rw [hsplit]
  -- the snapshot
  have hget : s3.get_log = (List.range' k (c' + 1 - k)).map r ++
      (List.range' (c' + 1) k).map r := by
    unfold Controller.get_log
    rw [if_neg (by rw [h3p']; omega)]
    rw [h3c', h3d']
    rw [List.drop_left' (by simp), List.take_left' (by simp)]
  have hglue : s3.get_log = (List.range' k (c' + 1)).map r := by
    rw [hget, ← List.map_append]
    congr 1
    have h := List.range'_append_1 k (c' + 1 - k) k
    rw [hkc] at h
    exact h
  refine ⟨hglue, ?_, ?_, ?_⟩
  · rw [hglue]; simp
  · rw [hglue, List.pairwise_map]
    exact (List.pairwise_lt_range' k (c' + 1)).imp (fun hab => hts _ _ hab)
  · unfold Controller.get_log
    rw [if_neg (by rw [h3p']; omega)]

/-- Witness for C3 at capacity 2, overflow 1, rows with timestamps
0, 1, 2. -/
theorem log_wraparound_snapshot_witness :
    (ctrl0.log_appendN rowSeq 0 (2 + 1)).get_log =
      (List.range' 1 2).map rowSeq ∧
    (ctrl0.log_appendN rowSeq 0 (2 + 1)).get_log.length = 2 ∧
    (ctrl0.log_appendN rowSeq 0 (2 + 1)).get_log.Pairwise
      (fun a b => a.timestamp < b.timestamp) ∧
    (ctrl0.log_appendN rowSeq 0 (2 + 1)).get_log =
      (ctrl0.log_appendN rowSeq 0 (2 + 1)).data.drop
          (ctrl0.log_appendN rowSeq 0 (2 + 1)).current
        ++ (ctrl0.log_appendN rowSeq 0 (2 + 1)).data.take
            (ctrl0.log_appendN rowSeq 0 (2 + 1)).current :=
  log_wraparound_snapshot ctrl0 2 1 rowSeq (by norm_num) (by norm_num) rfl
    rfl rfl (fun i j h => by simp [rowSeq]; exact_mod_cast h)

end Pyctrl
